import Mathlib

/-!
Verification of the real-estate matcher's query builder and progressive
relaxation controller (`src/real_estate_conversations.py`) against its
natural-language specification.

Modelling conventions:

* Python `int` values are arbitrary-precision, so they are embedded as `ℤ`.
* Python `float` values are IEEE-754 binary64.  Where the source performs
  float arithmetic whose rounding is observable at spec-relevant inputs
  (the budget relaxation chain, which multiplies by the non-representable
  constant `0.15`), the embedding models the rounding explicitly with
  `roundDouble`, round-to-nearest-ties-to-even at 53 significant bits
  (exponent unbounded: none of the values involved reach the overflow or
  subnormal ranges of binary64).  The bathroom tolerance arithmetic only
  adds half-integers to small integers, which binary64 performs exactly,
  so it is embedded as exact rational arithmetic.
* The LLM preference-extraction call and the Chroma search backend are
  external collaborators; they enter the embedding as explicit arguments
  (an `Option BuyerPreferences` extraction result, and a search function
  from query text, filter conditions and result limit to a list of ids).
* `datetime.now().year`, read inside `build_filter_conditions`, enters
  the embedding as the explicit argument `current_year`.
-/

/-- A structured filter condition as built by `build_filter_conditions`:
`eq f v` models the dict `\x7bf: v\x7d`, `ge f v` models `\x7bf: \x7b"$gte": v\x7d\x7d` and
`le f v` models `\x7bf: \x7b"$lte": v\x7d\x7d`. -/
inductive FilterCondition where
  | eq (field : String) (value : ℚ)
  | ge (field : String) (value : ℚ)
  | le (field : String) (value : ℚ)
deriving DecidableEq, Repr

/-- The metadata field a condition constrains. -/
def FilterCondition.field : FilterCondition → String
  | FilterCondition.eq f _ => f
  | FilterCondition.ge f _ => f
  | FilterCondition.le f _ => f

/-- The pydantic model `BuyerPreferences` from `real_estate_conversations.py`.
Ints are embedded as `ℤ`; the float field `bathrooms` as `ℚ`. -/
structure BuyerPreferences where
  bedrooms : Option ℤ := none
  bathrooms : Option ℚ := none
  property_type : Option String := none
  area_min_sqft : Option ℤ := none
  area_max_sqft : Option ℤ := none
  building_max_age : Option ℤ := none
  building_min_year : Option ℤ := none
  amenities : List String := []
  furnished : Bool := false
  location : Option String := none
  neighborhood_features : List String := []
  transportation : List String := []
  parking_required : Bool := false
  pet_friendly_required : Bool := false
  min_budget : Option ℤ := none
  max_budget : Option ℤ := none
deriving DecidableEq, Repr

/-- The `RELAXATION_CONFIG` dictionary shape. -/
structure RelaxationConfig where
  bathrooms_tolerance : ℚ
  budget_pct : ℚ
  area_sqft_delta : ℤ
  max_building_relax_level : ℤ
deriving DecidableEq, Repr

/-- Round a rational to the nearest integer, ties to even
(the rounding used within binary64 operations). -/
def rhe (q : ℚ) : ℤ :=
  if q - ⌊q⌋ < 1 / 2 then ⌊q⌋
  else if (1 : ℚ) / 2 < q - ⌊q⌋ then ⌊q⌋ + 1
  else if ⌊q⌋ % 2 = 0 then ⌊q⌋ else ⌊q⌋ + 1

/-- Round a positive rational to 53 significant bits
(round to nearest, ties to even). -/
def roundPos (q : ℚ) : ℚ :=
  ((rhe (q * (2 : ℚ) ^ ((52 : ℤ) - Int.log 2 q)) : ℤ) : ℚ) *
    (2 : ℚ) ^ (Int.log 2 q - 52)

/-- Round a rational to the nearest IEEE-754 binary64 value
(round to nearest, ties to even; exponent unbounded, which agrees with
binary64 on all values appearing in this development). -/
def roundDouble (q : ℚ) : ℚ :=
  if q < 0 then -roundPos (-q) else if q = 0 then 0 else roundPos q

/-- Binary64 multiplication. -/
def fmul64 (a b : ℚ) : ℚ := roundDouble (a * b)

/-- Binary64 addition. -/
def fadd64 (a b : ℚ) : ℚ := roundDouble (a + b)

/-- Binary64 subtraction. -/
def fsub64 (a b : ℚ) : ℚ := roundDouble (a - b)

/-- Python `int()` applied to a float value: truncation toward zero. -/
def ratTrunc (q : ℚ) : ℤ := if q < 0 then ⌈q⌉ else ⌊q⌋

/-- The default `RELAXATION_CONFIG` of `RealEstateConversations`:
`0.5`, `0.15`, `200`, `2`.  The two float literals are stored as their
binary64 values. -/
def defaultConfig : RelaxationConfig where
  bathrooms_tolerance := roundDouble (1 / 2)
  budget_pct := roundDouble (3 / 20)
  area_sqft_delta := 200
  max_building_relax_level := 2

/-- The price lower bound computed by `build_filter_conditions`:
`int(prefs.min_budget * (1 - cfg["budget_pct"] * relaxation_level))`,
with the float operations rounded to binary64. -/
def budget_lower (cfg : RelaxationConfig) (B : ℤ) (level : ℕ) : ℤ :=
  ratTrunc (fmul64 (roundDouble (B : ℚ))
    (fsub64 1 (fmul64 cfg.budget_pct (roundDouble (level : ℚ)))))

/-- The price upper bound computed by `build_filter_conditions`:
`int(prefs.max_budget * (1 + cfg["budget_pct"] * relaxation_level))`,
with the float operations rounded to binary64. -/
def budget_upper (cfg : RelaxationConfig) (B : ℤ) (level : ℕ) : ℤ :=
  ratTrunc (fmul64 (roundDouble (B : ℚ))
    (fadd64 1 (fmul64 cfg.budget_pct (roundDouble (level : ℚ)))))

/-- Conditions from the `prefs.bedrooms is not None` block. -/
def bedroomsConds (prefs : BuyerPreferences) : List FilterCondition :=
  match prefs.bedrooms with
  | some n => [FilterCondition.eq "bedrooms" (n : ℚ)]
  | none => []

/-- Conditions from the `prefs.bathrooms is not None` block:
`tol = cfg["bathrooms_tolerance"] + relaxation_level`, then a `$gte` and a
`$lte` condition at `prefs.bathrooms ∓ tol` (these binary64 operations are
exact on the realistic value range, see the header, so they are embedded
as exact rational arithmetic). -/
def bathroomsConds (cfg : RelaxationConfig) (prefs : BuyerPreferences)
    (level : ℕ) : List FilterCondition :=
  match prefs.bathrooms with
  | some v =>
      [FilterCondition.ge "bathrooms" (v - (cfg.bathrooms_tolerance + level)),
       FilterCondition.le "bathrooms" (v + (cfg.bathrooms_tolerance + level))]
  | none => []

/-- Conditions from the `prefs.min_budget is not None` block. -/
def minBudgetConds (cfg : RelaxationConfig) (prefs : BuyerPreferences)
    (level : ℕ) : List FilterCondition :=
  match prefs.min_budget with
  | some B => [FilterCondition.ge "price" ((budget_lower cfg B level : ℤ) : ℚ)]
  | none => []

/-- Conditions from the `prefs.max_budget is not None` block. -/
def maxBudgetConds (cfg : RelaxationConfig) (prefs : BuyerPreferences)
    (level : ℕ) : List FilterCondition :=
  match prefs.max_budget with
  | some B => [FilterCondition.le "price" ((budget_upper cfg B level : ℤ) : ℚ)]
  | none => []

/-- Conditions from the `prefs.area_min_sqft is not None` block:
`max(0, prefs.area_min_sqft - cfg["area_sqft_delta"] * relaxation_level)`
(exact integer arithmetic in Python). -/
def areaMinConds (cfg : RelaxationConfig) (prefs : BuyerPreferences)
    (level : ℕ) : List FilterCondition :=
  match prefs.area_min_sqft with
  | some a =>
      [FilterCondition.ge "area_sqft"
        ((max 0 (a - cfg.area_sqft_delta * (level : ℤ)) : ℤ) : ℚ)]
  | none => []

/-- Conditions from the `prefs.area_max_sqft is not None` block. -/
def areaMaxConds (cfg : RelaxationConfig) (prefs : BuyerPreferences)
    (level : ℕ) : List FilterCondition :=
  match prefs.area_max_sqft with
  | some a =>
      [FilterCondition.le "area_sqft"
        ((a + cfg.area_sqft_delta * (level : ℤ) : ℤ) : ℚ)]
  | none => []

/-- Conditions from the block guarded by
`prefs.building_min_year is not None and relaxation_level < cfg["max_building_relax_level"]`. -/
def buildingMinYearConds (cfg : RelaxationConfig) (prefs : BuyerPreferences)
    (level : ℕ) : List FilterCondition :=
  match prefs.building_min_year with
  | some b =>
      if (level : ℤ) < cfg.max_building_relax_level then
        [FilterCondition.ge "year_built" (b : ℚ)]
      else []
  | none => []

/-- Conditions from the block guarded by
`prefs.building_max_age is not None and relaxation_level < cfg["max_building_relax_level"]`;
`current_year` is `datetime.now().year` as read at line 222. -/
def buildingMaxAgeConds (current_year : ℤ) (cfg : RelaxationConfig)
    (prefs : BuyerPreferences) (level : ℕ) : List FilterCondition :=
  match prefs.building_max_age with
  | some a =>
      if (level : ℤ) < cfg.max_building_relax_level then
        [FilterCondition.ge "year_built" ((current_year - a : ℤ) : ℚ)]
      else []
  | none => []

/-- `RealEstateConversations.build_filter_conditions`
(`real_estate_conversations.py`, lines 218-252): the eight `if` blocks
append their conditions in source order.  `current_year` is the value of
`datetime.now().year` read at the top of the function. -/
def build_filter_conditions (current_year : ℤ) (cfg : RelaxationConfig)
    (prefs : BuyerPreferences) (relaxation_level : ℕ) : List FilterCondition :=
  bedroomsConds prefs
    ++ bathroomsConds cfg prefs relaxation_level
    ++ minBudgetConds cfg prefs relaxation_level
    ++ maxBudgetConds cfg prefs relaxation_level
    ++ areaMinConds cfg prefs relaxation_level
    ++ areaMaxConds cfg prefs relaxation_level
    ++ buildingMinYearConds cfg prefs relaxation_level
    ++ buildingMaxAgeConds current_year cfg prefs relaxation_level

/-- `RealEstateConversations._yes_no`. -/
def yes_no (value : Bool) : String := if value then "Yes" else "No"

/-- `RealEstateConversations._join_or_any`. -/
def join_or_any (values : List String) : String :=
  match values with
  | [] => "Any"
  | _ => String.intercalate ", " values

/-- Python `x or "Any"` on an optional string (`None` and `""` are falsy). -/
def orAny (s : Option String) : String :=
  match s with
  | none => "Any"
  | some t => if t = "" then "Any" else t

/-- `RealEstateConversations.build_query_text`: the `QUERY_TEXT_TEMPLATE`
rendering of the non-structured preference fields. -/
def build_query_text (prefs : BuyerPreferences) : String :=
  "- Property type: " ++ orAny prefs.property_type
    ++ "\n- Amenities: " ++ join_or_any prefs.amenities
    ++ "\n- Furnished: " ++ yes_no prefs.furnished
    ++ "\n- Location: " ++ orAny prefs.location
    ++ "\n- Neighborhood features: " ++ join_or_any prefs.neighborhood_features
    ++ "\n- Transportation preferences: " ++ join_or_any prefs.transportation
    ++ "\n- Parking required: " ++ yes_no prefs.parking_required
    ++ "\n- Pet friendly required: " ++ yes_no prefs.pet_friendly_required

/-- The progressive relaxation loop body of
`query_with_progressive_relaxation` (lines 332-346): `searchAtLevel` is one
iteration's combined backend call (`database.query` followed by
`database.extract_ids_from_query_outputs`), `acc` is the current value of
the `ids` variable (initially `[]`), and the remaining loop levels are
passed as a list.  The loop breaks as soon as at least `n_results` ids are
returned, and otherwise falls through with the last level's ids. -/
def relaxationSearchLoop (searchAtLevel : ℕ → List String) (n_results : ℕ) :
    List ℕ → List String → List String
  | [], acc => acc
  | level :: rest, _ =>
      if n_results ≤ (searchAtLevel level).length then searchAtLevel level
      else relaxationSearchLoop searchAtLevel n_results rest (searchAtLevel level)

/-- Trace instrumentation of the same loop: the list of levels at which a
backend search call (`database.query`) is made, in the order the calls
occur. -/
def relaxationCallLevels (searchAtLevel : ℕ → List String) (n_results : ℕ) :
    List ℕ → List ℕ
  | [] => []
  | level :: rest =>
      if n_results ≤ (searchAtLevel level).length then [level]
      else level :: relaxationCallLevels searchAtLevel n_results rest

/-- `RealEstateConversations.query_with_progressive_relaxation`
(lines 301-350).  `extracted` is the result of the external LLM extraction
(`extract_preferences`, `None` on failure); `dbSearch` is the external
search backend (query text, filter conditions, result limit ↦ ranked ids);
`current_year` the clock year read by `build_filter_conditions`. -/
def query_with_progressive_relaxation (extracted : Option BuyerPreferences)
    (dbSearch : String → List FilterCondition → ℕ → List String)
    (current_year : ℤ) (cfg : RelaxationConfig)
    (n_results max_relaxation_level : ℕ) : List String :=
  match extracted with
  | none => []
  | some prefs =>
      relaxationSearchLoop
        (fun level => dbSearch (build_query_text prefs)
          (build_filter_conditions current_year cfg prefs level) n_results)
        n_results (List.range (max_relaxation_level + 1)) []

/-- The levels at which `query_with_progressive_relaxation` invokes the
search backend, in order of invocation. -/
def query_call_levels (extracted : Option BuyerPreferences)
    (dbSearch : String → List FilterCondition → ℕ → List String)
    (current_year : ℤ) (cfg : RelaxationConfig)
    (n_results max_relaxation_level : ℕ) : List ℕ :=
  match extracted with
  | none => []
  | some prefs =>
      relaxationCallLevels
        (fun level => dbSearch (build_query_text prefs)
          (build_filter_conditions current_year cfg prefs level) n_results)
        n_results (List.range (max_relaxation_level + 1))

/-- The combined backend interaction one loop iteration performs:
`database.query(query_text, conditions, n_results)` followed by
`database.extract_ids_from_query_outputs(...)`, at a given relaxation
level. -/
def backendCallAt (dbSearch : String → List FilterCondition → ℕ → List String)
    (prefs : BuyerPreferences) (current_year : ℤ) (cfg : RelaxationConfig)
    (n_results : ℕ) (level : ℕ) : List String :=
  dbSearch (build_query_text prefs)
    (build_filter_conditions current_year cfg prefs level) n_results

/-- A value `x` for field `field` is allowed by a single filter condition
(conditions on other fields do not constrain it). -/
def condAllows (field : String) (x : ℚ) (c : FilterCondition) : Prop :=
  match c with
  | FilterCondition.eq f v => f = field → x = v
  | FilterCondition.ge f v => f = field → v ≤ x
  | FilterCondition.le f v => f = field → x ≤ v

instance condAllowsDecidable (field : String) (x : ℚ) (c : FilterCondition) :
    Decidable (condAllows field x c) :=
  match c with
  | FilterCondition.eq f v => inferInstanceAs (Decidable (f = field → x = v))
  | FilterCondition.ge f v => inferInstanceAs (Decidable (f = field → v ≤ x))
  | FilterCondition.le f v => inferInstanceAs (Decidable (f = field → x ≤ v))

/-- The numeric range a condition list admits for a field: a value `x`
is admitted when every condition on that field allows it. -/
def admits (conds : List FilterCondition) (field : String) (x : ℚ) : Prop :=
  ∀ c ∈ conds, condAllows field x c

instance admitsDecidable (conds : List FilterCondition) (field : String)
    (x : ℚ) : Decidable (admits conds field x) :=
  List.decidableBAll (condAllows field x) conds

theorem rhe_ge_floor (q : ℚ) : ⌊q⌋ ≤ rhe q := by
  unfold rhe; split_ifs <;> omega

theorem rhe_le_floor_add_one (q : ℚ) : rhe q ≤ ⌊q⌋ + 1 := by
  unfold rhe; split_ifs <;> omega

theorem rhe_mono {a b : ℚ} (h : a ≤ b) : rhe a ≤ rhe b := by
  rcases lt_or_eq_of_le (Int.floor_mono h) with hf | hf
  · calc rhe a ≤ ⌊a⌋ + 1 := rhe_le_floor_add_one a
      _ ≤ ⌊b⌋ := by omega
      _ ≤ rhe b := rhe_ge_floor b
  · unfold rhe
    rw [hf]
    split_ifs <;> first | omega | linarith

theorem rhe_intCast (n : ℤ) : rhe (n : ℚ) = n := by
  unfold rhe
  rw [Int.floor_intCast]
  norm_num

theorem rhe_eval_lt (q : ℚ) (n : ℤ) (hfl : ⌊q⌋ = n) (h : q - (n : ℚ) < 1 / 2) :
    rhe q = n := by
  unfold rhe; rw [hfl, if_pos h]

theorem rhe_eval_gt (q : ℚ) (n : ℤ) (hfl : ⌊q⌋ = n) (h : (1 : ℚ) / 2 < q - n) :
    rhe q = n + 1 := by
  unfold rhe; rw [hfl, if_neg (by linarith), if_pos h]

theorem two_zpow_le_roundPos {q : ℚ} (hq : 0 < q) :
    (2 : ℚ) ^ (Int.log 2 q) ≤ roundPos q := by
  unfold roundPos
  set e := Int.log 2 q with he
  have hlow : ((2 : ℕ) : ℚ) ^ e ≤ q := Int.zpow_log_le_self (by norm_num) hq
  have h2pos : (0 : ℚ) < (2 : ℚ) ^ ((52 : ℤ) - e) := zpow_pos (by norm_num) _
  have hsc : (2 : ℚ) ^ (52 : ℤ) ≤ q * (2 : ℚ) ^ ((52 : ℤ) - e) := by
    calc (2 : ℚ) ^ (52 : ℤ) = (2 : ℚ) ^ e * (2 : ℚ) ^ ((52 : ℤ) - e) := by
          rw [← zpow_add₀ (by norm_num : (2 : ℚ) ≠ 0)]; ring_nf
      _ ≤ q * (2 : ℚ) ^ ((52 : ℤ) - e) := by
          apply mul_le_mul_of_nonneg_right _ (le_of_lt h2pos)
          exact_mod_cast hlow
  have hfl : (2 ^ 52 : ℤ) ≤ ⌊q * (2 : ℚ) ^ ((52 : ℤ) - e)⌋ := by
    apply Int.le_floor.mpr
    calc ((2 ^ 52 : ℤ) : ℚ) = (2 : ℚ) ^ (52 : ℤ) := by norm_num
      _ ≤ _ := hsc
  have hm : (2 ^ 52 : ℤ) ≤ rhe (q * (2 : ℚ) ^ ((52 : ℤ) - e)) :=
    le_trans hfl (rhe_ge_floor _)
  calc (2 : ℚ) ^ e = (2 : ℚ) ^ (52 : ℤ) * (2 : ℚ) ^ (e - 52) := by
        rw [← zpow_add₀ (by norm_num : (2 : ℚ) ≠ 0)]; ring_nf
    _ ≤ ((rhe (q * (2 : ℚ) ^ ((52 : ℤ) - e)) : ℤ) : ℚ) * (2 : ℚ) ^ (e - 52) := by
        apply mul_le_mul_of_nonneg_right _ (le_of_lt (zpow_pos (by norm_num) _))
        calc (2 : ℚ) ^ (52 : ℤ) = ((2 ^ 52 : ℤ) : ℚ) := by norm_num
          _ ≤ _ := by exact_mod_cast hm

theorem roundPos_le_two_zpow {q : ℚ} (_hq : 0 < q) :
    roundPos q ≤ (2 : ℚ) ^ (Int.log 2 q + 1) := by
  unfold roundPos
  set e := Int.log 2 q with he
  have hup : q < ((2 : ℕ) : ℚ) ^ (e + 1) := Int.lt_zpow_succ_log_self (by norm_num) q
  have h2pos : (0 : ℚ) < (2 : ℚ) ^ ((52 : ℤ) - e) := zpow_pos (by norm_num) _
  have hsc : q * (2 : ℚ) ^ ((52 : ℤ) - e) < (2 : ℚ) ^ (53 : ℤ) := by
    calc q * (2 : ℚ) ^ ((52 : ℤ) - e) < (2 : ℚ) ^ (e + 1) * (2 : ℚ) ^ ((52 : ℤ) - e) := by
          apply mul_lt_mul_of_pos_right _ h2pos
          exact_mod_cast hup
      _ = (2 : ℚ) ^ (53 : ℤ) := by
          rw [← zpow_add₀ (by norm_num : (2 : ℚ) ≠ 0)]; ring_nf
  have hfl : ⌊q * (2 : ℚ) ^ ((52 : ℤ) - e)⌋ < (2 ^ 53 : ℤ) := by
    rw [Int.floor_lt]
    calc q * (2 : ℚ) ^ ((52 : ℤ) - e) < (2 : ℚ) ^ (53 : ℤ) := hsc
      _ = ((2 ^ 53 : ℤ) : ℚ) := by norm_num
  have hm : rhe (q * (2 : ℚ) ^ ((52 : ℤ) - e)) ≤ (2 ^ 53 : ℤ) := by
    have := rhe_le_floor_add_one (q * (2 : ℚ) ^ ((52 : ℤ) - e))
    omega
  calc ((rhe (q * (2 : ℚ) ^ ((52 : ℤ) - e)) : ℤ) : ℚ) * (2 : ℚ) ^ (e - 52)
      ≤ ((2 ^ 53 : ℤ) : ℚ) * (2 : ℚ) ^ (e - 52) := by
        apply mul_le_mul_of_nonneg_right _ (le_of_lt (zpow_pos (by norm_num) _))
        exact_mod_cast hm
    _ = (2 : ℚ) ^ (e + 1) := by
        rw [show ((2 ^ 53 : ℤ) : ℚ) = (2 : ℚ) ^ (53 : ℤ) by norm_num,
          ← zpow_add₀ (by norm_num : (2 : ℚ) ≠ 0)]
        ring_nf

theorem roundPos_pos {q : ℚ} (hq : 0 < q) : 0 < roundPos q :=
  lt_of_lt_of_le (zpow_pos (by norm_num) _) (two_zpow_le_roundPos hq)

theorem roundPos_mono {a b : ℚ} (ha : 0 < a) (h : a ≤ b) :
    roundPos a ≤ roundPos b := by
  have hb : 0 < b := lt_of_lt_of_le ha h
  have hlm : Int.log 2 a ≤ Int.log 2 b := Int.log_mono_right ha h
  rcases lt_or_eq_of_le hlm with hlog | hlog
  · calc roundPos a ≤ (2 : ℚ) ^ (Int.log 2 a + 1) := roundPos_le_two_zpow ha
      _ ≤ (2 : ℚ) ^ (Int.log 2 b) := by
          apply zpow_le_zpow_right₀ (by norm_num) (by omega)
      _ ≤ roundPos b := two_zpow_le_roundPos hb
  · unfold roundPos
    rw [← hlog]
    apply mul_le_mul_of_nonneg_right _ (le_of_lt (zpow_pos (by norm_num) _))
    have : a * (2 : ℚ) ^ ((52 : ℤ) - Int.log 2 a) ≤ b * (2 : ℚ) ^ ((52 : ℤ) - Int.log 2 a) := by
      apply mul_le_mul_of_nonneg_right h (le_of_lt (zpow_pos (by norm_num) _))
    exact_mod_cast rhe_mono this

theorem roundDouble_zero : roundDouble 0 = 0 := by
  unfold roundDouble; norm_num

theorem roundDouble_pos {q : ℚ} (hq : 0 < q) : 0 < roundDouble q := by
  unfold roundDouble
  rw [if_neg (by linarith), if_neg (by linarith)]
  exact roundPos_pos hq

theorem roundDouble_neg_of_neg {q : ℚ} (hq : q < 0) : roundDouble q < 0 := by
  unfold roundDouble
  rw [if_pos hq]
  have : 0 < roundPos (-q) := roundPos_pos (by linarith)
  linarith

theorem roundDouble_mono {a b : ℚ} (h : a ≤ b) :
    roundDouble a ≤ roundDouble b := by
  rcases lt_trichotomy a 0 with ha | ha | ha
  · rcases lt_trichotomy b 0 with hb | hb | hb
    · unfold roundDouble
      rw [if_pos ha, if_pos hb]
      have : roundPos (-b) ≤ roundPos (-a) := roundPos_mono (by linarith) (by linarith)
      linarith
    · rw [hb, roundDouble_zero]
      exact le_of_lt (roundDouble_neg_of_neg ha)
    · exact le_of_lt (lt_trans (roundDouble_neg_of_neg ha) (roundDouble_pos hb))
  · rw [ha, roundDouble_zero]
    have hb0 : (0 : ℚ) ≤ b := ha ▸ h
    rcases eq_or_lt_of_le hb0 with hb | hb
    · rw [← hb, roundDouble_zero]
    · exact le_of_lt (roundDouble_pos hb)
  · have hb : 0 < b := lt_of_lt_of_le ha h
    unfold roundDouble
    rw [if_neg (by linarith), if_neg (by linarith), if_neg (by linarith),
      if_neg (by linarith)]
    exact roundPos_mono ha h

theorem roundDouble_nonneg {q : ℚ} (hq : 0 ≤ q) : 0 ≤ roundDouble q := by
  have := roundDouble_mono hq
  rwa [roundDouble_zero] at this

theorem roundDouble_nonpos {q : ℚ} (hq : q ≤ 0) : roundDouble q ≤ 0 := by
  have := roundDouble_mono hq
  rwa [roundDouble_zero] at this

theorem roundDouble_neg (q : ℚ) : roundDouble (-q) = -roundDouble q := by
  rcases lt_trichotomy q 0 with h | h | h
  · unfold roundDouble
    rw [if_neg (by linarith), if_neg (by linarith), if_pos h, neg_neg]
  · rw [h]; simp [roundDouble_zero]
  · unfold roundDouble
    rw [if_pos (by linarith), if_neg (by linarith), if_neg (by linarith), neg_neg]

theorem roundDouble_eq_of (q : ℚ) (e : ℤ) (hq : 0 < q)
    (h1 : (2 : ℚ) ^ e ≤ q) (h2 : q < (2 : ℚ) ^ (e + 1)) :
    roundDouble q = ((rhe (q * (2 : ℚ) ^ ((52 : ℤ) - e)) : ℤ) : ℚ) *
      (2 : ℚ) ^ (e - 52) := by
  have hlog : Int.log 2 q = e := by
    have hle : e ≤ Int.log 2 q := by
      apply (Int.zpow_le_iff_le_log (by norm_num) hq).mp
      exact_mod_cast h1
    have hlt : Int.log 2 q < e + 1 := by
      apply (Int.lt_zpow_iff_log_lt (by norm_num) hq).mp
      exact_mod_cast h2
    omega
  unfold roundDouble roundPos
  rw [if_neg (by linarith), if_neg (by linarith), hlog]
theorem rd_pct : roundDouble (3 / 20 : ℚ) = 5404319552844595 / 2 ^ 55 := by
  rw [roundDouble_eq_of (3 / 20 : ℚ) (-3) (by norm_num) (by norm_num) (by norm_num)]
  rw [show (3 / 20 : ℚ) * (2 : ℚ) ^ ((52 : ℤ) - (-3)) = 27021597764222976 / 5 by norm_num]
  rw [rhe_eval_lt (27021597764222976 / 5 : ℚ) (5404319552844595) (by rw [Int.floor_eq_iff]; constructor <;> norm_num) (by norm_num)]
  norm_num

theorem rd_half : roundDouble (1 / 2 : ℚ) = 1 / 2 := by
  rw [roundDouble_eq_of (1 / 2 : ℚ) (-1) (by norm_num) (by norm_num) (by norm_num)]
  rw [show (1 / 2 : ℚ) * (2 : ℚ) ^ ((52 : ℤ) - (-1)) = 4503599627370496 by norm_num]
  rw [rhe_eval_lt (4503599627370496 : ℚ) (4503599627370496) (by rw [Int.floor_eq_iff]; constructor <;> norm_num) (by norm_num)]
  norm_num

theorem rd_one : roundDouble (1 : ℚ) = 1 := by
  rw [roundDouble_eq_of (1 : ℚ) (0) (by norm_num) (by norm_num) (by norm_num)]
  rw [show (1 : ℚ) * (2 : ℚ) ^ ((52 : ℤ) - (0)) = 4503599627370496 by norm_num]
  rw [rhe_eval_lt (4503599627370496 : ℚ) (4503599627370496) (by rw [Int.floor_eq_iff]; constructor <;> norm_num) (by norm_num)]
  norm_num

theorem rd_seven : roundDouble (7 : ℚ) = 7 := by
  rw [roundDouble_eq_of (7 : ℚ) (2) (by norm_num) (by norm_num) (by norm_num)]
  rw [show (7 : ℚ) * (2 : ℚ) ^ ((52 : ℤ) - (2)) = 7881299347898368 by norm_num]
  rw [rhe_eval_lt (7881299347898368 : ℚ) (7881299347898368) (by rw [Int.floor_eq_iff]; constructor <;> norm_num) (by norm_num)]
  norm_num

theorem rd_300000 : roundDouble (300000 : ℚ) = 300000 := by
  rw [roundDouble_eq_of (300000 : ℚ) (18) (by norm_num) (by norm_num) (by norm_num)]
  rw [show (300000 : ℚ) * (2 : ℚ) ^ ((52 : ℤ) - (18)) = 5153960755200000 by norm_num]
  rw [rhe_eval_lt (5153960755200000 : ℚ) (5153960755200000) (by rw [Int.floor_eq_iff]; constructor <;> norm_num) (by norm_num)]
  norm_num

theorem rd_340000 : roundDouble (340000 : ℚ) = 340000 := by
  rw [roundDouble_eq_of (340000 : ℚ) (18) (by norm_num) (by norm_num) (by norm_num)]
  rw [show (340000 : ℚ) * (2 : ℚ) ^ ((52 : ℤ) - (18)) = 5841155522560000 by norm_num]
  rw [rhe_eval_lt (5841155522560000 : ℚ) (5841155522560000) (by rw [Int.floor_eq_iff]; constructor <;> norm_num) (by norm_num)]
  norm_num

theorem rd_pct_idem : roundDouble (5404319552844595 / 2 ^ 55 : ℚ) = 5404319552844595 / 2 ^ 55 := by
  rw [roundDouble_eq_of (5404319552844595 / 2 ^ 55 : ℚ) (-3) (by norm_num) (by norm_num) (by norm_num)]
  rw [show (5404319552844595 / 2 ^ 55 : ℚ) * (2 : ℚ) ^ ((52 : ℤ) - (-3)) = 5404319552844595 by norm_num]
  rw [rhe_eval_lt (5404319552844595 : ℚ) (5404319552844595) (by rw [Int.floor_eq_iff]; constructor <;> norm_num) (by norm_num)]
  norm_num

theorem rd_m1 : roundDouble (30624477466119373 / 2 ^ 55 : ℚ) = 7656119366529843 / 2 ^ 53 := by
  rw [roundDouble_eq_of (30624477466119373 / 2 ^ 55 : ℚ) (-1) (by norm_num) (by norm_num) (by norm_num)]
  rw [show (30624477466119373 / 2 ^ 55 : ℚ) * (2 : ℚ) ^ ((52 : ℤ) - (-1)) = 30624477466119373 / 2 ^ 2 by norm_num]
  rw [rhe_eval_lt (30624477466119373 / 2 ^ 2 : ℚ) (7656119366529843) (by rw [Int.floor_eq_iff]; constructor <;> norm_num) (by norm_num)]
  norm_num

theorem rd_lo1 : roundDouble (71776119061217278125 / 2 ^ 48 : ℚ) = 255000 := by
  rw [roundDouble_eq_of (71776119061217278125 / 2 ^ 48 : ℚ) (17) (by norm_num) (by norm_num) (by norm_num)]
  rw [show (71776119061217278125 / 2 ^ 48 : ℚ) * (2 : ℚ) ^ ((52 : ℤ) - (17)) = 71776119061217278125 / 2 ^ 13 by norm_num]
  rw [rhe_eval_gt (71776119061217278125 / 2 ^ 13 : ℚ) (8761733283839999) (by rw [Int.floor_eq_iff]; constructor <;> norm_num) (by norm_num)]
  norm_num

theorem rd_q1 : roundDouble (41433116571808563 / 2 ^ 55 : ℚ) = 2589569785738035 / 2 ^ 51 := by
  rw [roundDouble_eq_of (41433116571808563 / 2 ^ 55 : ℚ) (0) (by norm_num) (by norm_num) (by norm_num)]
  rw [show (41433116571808563 / 2 ^ 55 : ℚ) * (2 : ℚ) ^ ((52 : ℤ) - (0)) = 41433116571808563 / 2 ^ 3 by norm_num]
  rw [rhe_eval_lt (41433116571808563 / 2 ^ 3 : ℚ) (5179139571476070) (by rw [Int.floor_eq_iff]; constructor <;> norm_num) (by norm_num)]
  norm_num

theorem rd_hi1 : roundDouble (27514178973466621875 / 2 ^ 46 : ℚ) = 6717328850943999 / 2 ^ 34 := by
  rw [roundDouble_eq_of (27514178973466621875 / 2 ^ 46 : ℚ) (18) (by norm_num) (by norm_num) (by norm_num)]
  rw [show (27514178973466621875 / 2 ^ 46 : ℚ) * (2 : ℚ) ^ ((52 : ℤ) - (18)) = 27514178973466621875 / 2 ^ 12 by norm_num]
  rw [rhe_eval_lt (27514178973466621875 / 2 ^ 12 : ℚ) (6717328850943999) (by rw [Int.floor_eq_iff]; constructor <;> norm_num) (by norm_num)]
  norm_num

theorem rd_p7 : roundDouble (37830236869912165 / 2 ^ 55 : ℚ) = 4728779608739021 / 2 ^ 52 := by
  rw [roundDouble_eq_of (37830236869912165 / 2 ^ 55 : ℚ) (0) (by norm_num) (by norm_num) (by norm_num)]
  rw [show (37830236869912165 / 2 ^ 55 : ℚ) * (2 : ℚ) ^ ((52 : ℤ) - (0)) = 37830236869912165 / 2 ^ 3 by norm_num]
  rw [rhe_eval_gt (37830236869912165 / 2 ^ 3 : ℚ) (4728779608739020) (by rw [Int.floor_eq_iff]; constructor <;> norm_num) (by norm_num)]
  norm_num

theorem rd_m7abs : roundDouble (225179981368525 / 2 ^ 52 : ℚ) = 225179981368525 / 2 ^ 52 := by
  rw [roundDouble_eq_of (225179981368525 / 2 ^ 52 : ℚ) (-5) (by norm_num) (by norm_num) (by norm_num)]
  rw [show (225179981368525 / 2 ^ 52 : ℚ) * (2 : ℚ) ^ ((52 : ℤ) - (-5)) = 7205759403792800 by norm_num]
  rw [rhe_eval_lt (7205759403792800 : ℚ) (7205759403792800) (by rw [Int.floor_eq_iff]; constructor <;> norm_num) (by norm_num)]
  norm_num

theorem rd_lo7abs : roundDouble (2111062325329921875 / 2 ^ 47 : ℚ) = 8246337208320007 / 2 ^ 39 := by
  rw [roundDouble_eq_of (2111062325329921875 / 2 ^ 47 : ℚ) (13) (by norm_num) (by norm_num) (by norm_num)]
  rw [show (2111062325329921875 / 2 ^ 47 : ℚ) * (2 : ℚ) ^ ((52 : ℤ) - (13)) = 2111062325329921875 / 2 ^ 8 by norm_num]
  rw [rhe_eval_lt (2111062325329921875 / 2 ^ 8 : ℚ) (8246337208320007) (by rw [Int.floor_eq_iff]; constructor <;> norm_num) (by norm_num)]
  norm_num

theorem ratTrunc_eval_nonneg (q : ℚ) (n : ℤ) (h0 : ¬ q < 0) (hfl : ⌊q⌋ = n) :
    ratTrunc q = n := by
  unfold ratTrunc; rw [if_neg h0, hfl]

theorem ratTrunc_eval_neg (q : ℚ) (n : ℤ) (h0 : q < 0) (hcl : ⌈q⌉ = n) :
    ratTrunc q = n := by
  unfold ratTrunc; rw [if_pos h0, hcl]

theorem fmul_pct_one : fmul64 (5404319552844595 / 2 ^ 55 : ℚ) 1 = 5404319552844595 / 2 ^ 55 := by
  unfold fmul64; rw [mul_one]; exact rd_pct_idem

theorem fsub_one_pct : fsub64 1 (5404319552844595 / 2 ^ 55 : ℚ) = 7656119366529843 / 2 ^ 53 := by
  unfold fsub64
  rw [show (1 : ℚ) - 5404319552844595 / 2 ^ 55 = 30624477466119373 / 2 ^ 55 by norm_num]
  exact rd_m1

theorem fmul_300000_m1 : fmul64 (300000 : ℚ) (7656119366529843 / 2 ^ 53) = 255000 := by
  unfold fmul64
  rw [show (300000 : ℚ) * (7656119366529843 / 2 ^ 53) = 71776119061217278125 / 2 ^ 48 by norm_num]
  exact rd_lo1

theorem fadd_one_pct : fadd64 1 (5404319552844595 / 2 ^ 55 : ℚ) = 2589569785738035 / 2 ^ 51 := by
  unfold fadd64
  rw [show (1 : ℚ) + 5404319552844595 / 2 ^ 55 = 41433116571808563 / 2 ^ 55 by norm_num]
  exact rd_q1

theorem fmul_340000_q1 : fmul64 (340000 : ℚ) (2589569785738035 / 2 ^ 51) = 6717328850943999 / 2 ^ 34 := by
  unfold fmul64
  rw [show (340000 : ℚ) * (2589569785738035 / 2 ^ 51) = 27514178973466621875 / 2 ^ 46 by norm_num]
  exact rd_hi1

theorem budget_lower_300000_1 : budget_lower defaultConfig 300000 1 = 255000 := by
  unfold budget_lower
  rw [show defaultConfig.budget_pct = roundDouble (3 / 20) from rfl]
  rw [show (((300000 : ℤ)) : ℚ) = 300000 by norm_num]
  rw [show (((1 : ℕ)) : ℚ) = 1 by norm_num]
  rw [rd_pct, rd_one, rd_300000, fmul_pct_one, fsub_one_pct, fmul_300000_m1]
  exact ratTrunc_eval_nonneg _ _ (by norm_num) (by rw [Int.floor_eq_iff]; constructor <;> norm_num)

theorem budget_upper_340000_1 : budget_upper defaultConfig 340000 1 = 390999 := by
  unfold budget_upper
  rw [show defaultConfig.budget_pct = roundDouble (3 / 20) from rfl]
  rw [show (((340000 : ℤ)) : ℚ) = 340000 by norm_num]
  rw [show (((1 : ℕ)) : ℚ) = 1 by norm_num]
  rw [rd_pct, rd_one, rd_340000, fmul_pct_one, fadd_one_pct, fmul_340000_q1]
  exact ratTrunc_eval_nonneg _ _ (by norm_num) (by rw [Int.floor_eq_iff]; constructor <;> norm_num)

theorem fmul_pct_seven : fmul64 (5404319552844595 / 2 ^ 55 : ℚ) 7 = 4728779608739021 / 2 ^ 52 := by
  unfold fmul64
  rw [show (5404319552844595 / 2 ^ 55 : ℚ) * 7 = 37830236869912165 / 2 ^ 55 by norm_num]
  exact rd_p7

theorem fsub_one_p7 : fsub64 1 (4728779608739021 / 2 ^ 52 : ℚ) = -(225179981368525 / 2 ^ 52) := by
  unfold fsub64
  rw [show (1 : ℚ) - 4728779608739021 / 2 ^ 52 = -(225179981368525 / 2 ^ 52) by norm_num]
  rw [roundDouble_neg, rd_m7abs]

theorem fmul_300000_m7 : fmul64 (300000 : ℚ) (-(225179981368525 / 2 ^ 52)) = -(8246337208320007 / 2 ^ 39) := by
  unfold fmul64
  rw [show (300000 : ℚ) * (-(225179981368525 / 2 ^ 52)) = -(2111062325329921875 / 2 ^ 47) by norm_num]
  rw [roundDouble_neg, rd_lo7abs]

theorem budget_lower_300000_7 : budget_lower defaultConfig 300000 7 = -15000 := by
  unfold budget_lower
  rw [show defaultConfig.budget_pct = roundDouble (3 / 20) from rfl]
  rw [show (((300000 : ℤ)) : ℚ) = 300000 by norm_num]
  rw [show (((7 : ℕ)) : ℚ) = 7 by norm_num]
  rw [rd_pct, rd_seven, rd_300000, fmul_pct_seven, fsub_one_p7, fmul_300000_m7]
  exact ratTrunc_eval_neg _ _ (by norm_num) (by rw [Int.ceil_eq_iff]; constructor <;> norm_num)

theorem budget_lower_0_7 : budget_lower defaultConfig 0 7 = 0 := by
  unfold budget_lower
  rw [show (((0 : ℤ)) : ℚ) = 0 by norm_num, roundDouble_zero]
  unfold fmul64
  rw [zero_mul, roundDouble_zero]
  exact ratTrunc_eval_nonneg _ _ (by norm_num) (by norm_num)

theorem one_lt_fmul_pct_seven :
    1 < fmul64 defaultConfig.budget_pct (roundDouble ((7 : ℕ) : ℚ)) := by
  rw [show defaultConfig.budget_pct = roundDouble (3 / 20) from rfl]
  rw [show (((7 : ℕ)) : ℚ) = 7 by norm_num]
  rw [rd_pct, rd_seven, fmul_pct_seven]
  norm_num

theorem ratTrunc_mono {a b : ℚ} (h : a ≤ b) : ratTrunc a ≤ ratTrunc b := by
  unfold ratTrunc
  split_ifs with ha hb
  · exact Int.ceil_mono h
  · calc ⌈a⌉ ≤ 0 := Int.ceil_le.mpr (by push_cast; linarith)
      _ ≤ ⌊b⌋ := Int.floor_nonneg.mpr (le_of_not_lt hb)
  · linarith
  · exact Int.floor_mono h

theorem ratTrunc_nonneg {q : ℚ} (h : 0 ≤ q) : 0 ≤ ratTrunc q := by
  unfold ratTrunc
  rw [if_neg (not_lt.mpr h)]
  exact Int.floor_nonneg.mpr h

theorem ratTrunc_nonpos {q : ℚ} (h : q ≤ 0) : ratTrunc q ≤ 0 := by
  unfold ratTrunc
  split_ifs with hq
  · exact Int.ceil_le.mpr (by push_cast; linarith)
  · calc ⌊q⌋ ≤ ⌊(0 : ℚ)⌋ := Int.floor_mono h
      _ = 0 := Int.floor_zero

theorem ratTrunc_neg_of_le_neg_one {q : ℚ} (h : q ≤ -1) : ratTrunc q < 0 := by
  unfold ratTrunc
  rw [if_pos (by linarith)]
  have : ⌈q⌉ ≤ -1 := Int.ceil_le.mpr (by push_cast; linarith)
  omega

theorem budget_lower_antitone (cfg : RelaxationConfig) (B : ℤ) (level : ℕ)
    (hpct : 0 ≤ cfg.budget_pct) (hB : 0 ≤ B) :
    budget_lower cfg B (level + 1) ≤ budget_lower cfg B level := by
  unfold budget_lower
  apply ratTrunc_mono
  unfold fmul64 fsub64
  apply roundDouble_mono
  apply mul_le_mul_of_nonneg_left _ (roundDouble_nonneg (by exact_mod_cast hB))
  apply roundDouble_mono
  apply sub_le_sub_left
  apply roundDouble_mono
  apply mul_le_mul_of_nonneg_left _ hpct
  apply roundDouble_mono
  push_cast
  linarith

theorem budget_upper_monotone (cfg : RelaxationConfig) (B : ℤ) (level : ℕ)
    (hpct : 0 ≤ cfg.budget_pct) (hB : 0 ≤ B) :
    budget_upper cfg B level ≤ budget_upper cfg B (level + 1) := by
  unfold budget_upper
  apply ratTrunc_mono
  unfold fmul64 fadd64
  apply roundDouble_mono
  apply mul_le_mul_of_nonneg_left _ (roundDouble_nonneg (by exact_mod_cast hB))
  apply roundDouble_mono
  apply add_le_add_left
  apply roundDouble_mono
  apply mul_le_mul_of_nonneg_left _ hpct
  apply roundDouble_mono
  push_cast
  linarith

theorem relaxLoop_exhaust (f : ℕ → List String) (nRes : ℕ) :
    ∀ (n s : ℕ) (acc : List String),
      (∀ i, i ≤ n → (f (s + i)).length < nRes) →
      relaxationSearchLoop f nRes (List.range' s (n + 1)) acc = f (s + n) ∧
      relaxationCallLevels f nRes (List.range' s (n + 1)) = List.range' s (n + 1) := by
  intro n
  induction n with
  | zero =>
      intro s acc h
      have h0 : (f s).length < nRes := by simpa using h 0 (le_refl 0)
      rw [List.range'_succ]
      constructor
      · show relaxationSearchLoop f nRes (s :: List.range' (s + 1) 0) acc = f (s + 0)
        unfold relaxationSearchLoop
        rw [if_neg (not_le.mpr h0)]
        rfl
      · show relaxationCallLevels f nRes (s :: List.range' (s + 1) 0) = _
        unfold relaxationCallLevels
        rw [if_neg (not_le.mpr h0)]
        rfl
  | succ n ih =>
      intro s acc h
      have h0 : (f s).length < nRes := by simpa using h 0 (by omega)
      have hshift : ∀ i, i ≤ n → (f (s + 1 + i)).length < nRes := by
        intro i hi
        have := h (i + 1) (by omega)
        have harg : s + (i + 1) = s + 1 + i := by omega
        rwa [harg] at this
      obtain ⟨ih1, ih2⟩ := ih (s + 1) (f s) hshift
      rw [List.range'_succ]
      constructor
      · show relaxationSearchLoop f nRes (s :: List.range' (s + 1) (n + 1)) acc = f (s + (n + 1))
        unfold relaxationSearchLoop
        rw [if_neg (not_le.mpr h0), ih1]
        congr 1
        omega
      · show relaxationCallLevels f nRes (s :: List.range' (s + 1) (n + 1)) = _
        unfold relaxationCallLevels
        rw [if_neg (not_le.mpr h0), ih2, ← List.range'_succ]

theorem relaxLoop_hit (f : ℕ → List String) (nRes : ℕ) :
    ∀ (j : ℕ), ∀ (n s : ℕ) (acc : List String), j ≤ n →
      (∀ i, i < j → (f (s + i)).length < nRes) →
      nRes ≤ (f (s + j)).length →
      relaxationSearchLoop f nRes (List.range' s (n + 1)) acc = f (s + j) ∧
      relaxationCallLevels f nRes (List.range' s (n + 1)) = List.range' s (j + 1) := by
  intro j
  induction j with
  | zero =>
      intro n s acc _ _ hs
      have hs0 : nRes ≤ (f s).length := by simpa using hs
      rw [List.range'_succ]
      constructor
      · show relaxationSearchLoop f nRes (s :: List.range' (s + 1) n) acc = f (s + 0)
        unfold relaxationSearchLoop
        rw [if_pos hs0]
        rfl
      · show relaxationCallLevels f nRes (s :: List.range' (s + 1) n) = _
        unfold relaxationCallLevels
        rw [if_pos hs0, List.range'_succ]
        rfl
  | succ j ih =>
      intro n s acc hjn hins hs
      obtain ⟨m, rfl⟩ : ∃ m, n = m + 1 := ⟨n - 1, by omega⟩
      have h0 : (f s).length < nRes := by simpa using hins 0 (by omega)
      have hshift : ∀ i, i < j → (f (s + 1 + i)).length < nRes := by
        intro i hi
        have := hins (i + 1) (by omega)
        have harg : s + (i + 1) = s + 1 + i := by omega
        rwa [harg] at this
      have hsj : nRes ≤ (f (s + 1 + j)).length := by
        have harg : s + (j + 1) = s + 1 + j := by omega
        rwa [harg] at hs
      obtain ⟨ih1, ih2⟩ := ih m (s + 1) (f s) (by omega) hshift hsj
      rw [List.range'_succ]
      constructor
      · show relaxationSearchLoop f nRes (s :: List.range' (s + 1) (m + 1)) acc = f (s + (j + 1))
        unfold relaxationSearchLoop
        rw [if_neg (not_le.mpr h0), ih1]
        congr 1
        omega
      · show relaxationCallLevels f nRes (s :: List.range' (s + 1) (m + 1)) = _
        unfold relaxationCallLevels
        rw [if_neg (not_le.mpr h0), ih2, ← List.range'_succ]

theorem mem_bedroomsConds {prefs : BuyerPreferences} {c : FilterCondition} :
    c ∈ bedroomsConds prefs ↔
      ∃ n, prefs.bedrooms = some n ∧ c = FilterCondition.eq "bedrooms" (n : ℚ) := by
  cases h : prefs.bedrooms <;> simp [bedroomsConds, h]

theorem mem_bathroomsConds {cfg : RelaxationConfig} {prefs : BuyerPreferences}
    {level : ℕ} {c : FilterCondition} :
    c ∈ bathroomsConds cfg prefs level ↔
      ∃ v, prefs.bathrooms = some v ∧
        (c = FilterCondition.ge "bathrooms" (v - (cfg.bathrooms_tolerance + level)) ∨
         c = FilterCondition.le "bathrooms" (v + (cfg.bathrooms_tolerance + level))) := by
  cases h : prefs.bathrooms <;> simp [bathroomsConds, h]

theorem mem_minBudgetConds {cfg : RelaxationConfig} {prefs : BuyerPreferences}
    {level : ℕ} {c : FilterCondition} :
    c ∈ minBudgetConds cfg prefs level ↔
      ∃ B, prefs.min_budget = some B ∧
        c = FilterCondition.ge "price" ((budget_lower cfg B level : ℤ) : ℚ) := by
  cases h : prefs.min_budget <;> simp [minBudgetConds, h]

theorem mem_maxBudgetConds {cfg : RelaxationConfig} {prefs : BuyerPreferences}
    {level : ℕ} {c : FilterCondition} :
    c ∈ maxBudgetConds cfg prefs level ↔
      ∃ B, prefs.max_budget = some B ∧
        c = FilterCondition.le "price" ((budget_upper cfg B level : ℤ) : ℚ) := by
  cases h : prefs.max_budget <;> simp [maxBudgetConds, h]

theorem mem_areaMinConds {cfg : RelaxationConfig} {prefs : BuyerPreferences}
    {level : ℕ} {c : FilterCondition} :
    c ∈ areaMinConds cfg prefs level ↔
      ∃ a, prefs.area_min_sqft = some a ∧
        c = FilterCondition.ge "area_sqft"
          ((max 0 (a - cfg.area_sqft_delta * (level : ℤ)) : ℤ) : ℚ) := by
  cases h : prefs.area_min_sqft <;> simp [areaMinConds, h]

theorem mem_areaMaxConds {cfg : RelaxationConfig} {prefs : BuyerPreferences}
    {level : ℕ} {c : FilterCondition} :
    c ∈ areaMaxConds cfg prefs level ↔
      ∃ a, prefs.area_max_sqft = some a ∧
        c = FilterCondition.le "area_sqft"
          ((a + cfg.area_sqft_delta * (level : ℤ) : ℤ) : ℚ) := by
  cases h : prefs.area_max_sqft <;> simp [areaMaxConds, h]

theorem mem_buildingMinYearConds {cfg : RelaxationConfig}
    {prefs : BuyerPreferences} {level : ℕ} {c : FilterCondition} :
    c ∈ buildingMinYearConds cfg prefs level ↔
      ∃ b, prefs.building_min_year = some b ∧
        (level : ℤ) < cfg.max_building_relax_level ∧
        c = FilterCondition.ge "year_built" (b : ℚ) := by
  cases h : prefs.building_min_year with
  | none => simp [buildingMinYearConds, h]
  | some b =>
      by_cases hl : (level : ℤ) < cfg.max_building_relax_level <;>
        simp [buildingMinYearConds, h, hl]

theorem mem_buildingMaxAgeConds {current_year : ℤ} {cfg : RelaxationConfig}
    {prefs : BuyerPreferences} {level : ℕ} {c : FilterCondition} :
    c ∈ buildingMaxAgeConds current_year cfg prefs level ↔
      ∃ a, prefs.building_max_age = some a ∧
        (level : ℤ) < cfg.max_building_relax_level ∧
        c = FilterCondition.ge "year_built" ((current_year - a : ℤ) : ℚ) := by
  cases h : prefs.building_max_age with
  | none => simp [buildingMaxAgeConds, h]
  | some a =>
      by_cases hl : (level : ℤ) < cfg.max_building_relax_level <;>
        simp [buildingMaxAgeConds, h, hl]

theorem mem_build_filter_conditions {current_year : ℤ} {cfg : RelaxationConfig}
    {prefs : BuyerPreferences} {level : ℕ} {c : FilterCondition} :
    c ∈ build_filter_conditions current_year cfg prefs level ↔
      c ∈ bedroomsConds prefs ∨
      c ∈ bathroomsConds cfg prefs level ∨
      c ∈ minBudgetConds cfg prefs level ∨
      c ∈ maxBudgetConds cfg prefs level ∨
      c ∈ areaMinConds cfg prefs level ∨
      c ∈ areaMaxConds cfg prefs level ∨
      c ∈ buildingMinYearConds cfg prefs level ∨
      c ∈ buildingMaxAgeConds current_year cfg prefs level := by
  simp [build_filter_conditions, List.mem_append, or_assoc]

/-- C5: if preference extraction yields no usable record, the controller
returns an empty sequence, making zero backend search calls; as a total
function of the embedding it reports the condition rather than raising. -/
theorem C5_extraction_failure_empty_no_calls
    (dbSearch : String → List FilterCondition → ℕ → List String)
    (current_year : ℤ) (cfg : RelaxationConfig)
    (n_results max_relaxation_level : ℕ) :
    query_with_progressive_relaxation none dbSearch current_year cfg
        n_results max_relaxation_level = [] ∧
    query_call_levels none dbSearch current_year cfg
        n_results max_relaxation_level = [] :=
  ⟨rfl, rfl⟩

/-- C6: if the backend returns fewer than `n_results` ids at every level
from 0 to `max_relaxation_level`, the controller returns exactly the id
list produced at level `max_relaxation_level`, unmodified. -/
theorem C6_exhaustion_returns_last_level
    (prefs : BuyerPreferences)
    (dbSearch : String → List FilterCondition → ℕ → List String)
    (current_year : ℤ) (cfg : RelaxationConfig)
    (n_results max_relaxation_level : ℕ)
    (h : ∀ l, l ≤ max_relaxation_level →
      (backendCallAt dbSearch prefs current_year cfg n_results l).length < n_results) :
    query_with_progressive_relaxation (some prefs) dbSearch current_year cfg
        n_results max_relaxation_level
      = backendCallAt dbSearch prefs current_year cfg n_results
          max_relaxation_level := by
  have hg := relaxLoop_exhaust
    (backendCallAt dbSearch prefs current_year cfg n_results) n_results
    max_relaxation_level 0 []
    (by intro i hi; rw [zero_add]; exact h i hi)
  have hbridge : query_with_progressive_relaxation (some prefs) dbSearch
      current_year cfg n_results max_relaxation_level
      = relaxationSearchLoop
          (backendCallAt dbSearch prefs current_year cfg n_results) n_results
          (List.range (max_relaxation_level + 1)) [] := rfl
  rw [hbridge, List.range_eq_range', hg.1, zero_add]

/-- Closed witness for C6: a backend returning no ids at every level makes
the controller return the (empty) level-5 result. -/
theorem C6_witness :
    query_with_progressive_relaxation (some ({} : BuyerPreferences))
        (fun _ _ _ => ([] : List String)) 2025 defaultConfig 3 5
      = backendCallAt (fun _ _ _ => ([] : List String))
          ({} : BuyerPreferences) 2025 defaultConfig 3 5 :=
  C6_exhaustion_returns_last_level ({} : BuyerPreferences)
    (fun _ _ _ => ([] : List String)) 2025 defaultConfig 3 5
    (by intro l _; simp [backendCallAt])

/-- C1: for every successfully extracted preference record the controller
visits levels `0, 1, …, k` in increasing order for some `k ≤`
`max_relaxation_level`, makes exactly one backend search call per visited
level, never calls the backend past the first level returning at least
`n_results` ids, and returns that level's result. -/
theorem C1_progressive_relaxation_call_discipline
    (prefs : BuyerPreferences)
    (dbSearch : String → List FilterCondition → ℕ → List String)
    (current_year : ℤ) (cfg : RelaxationConfig)
    (n_results max_relaxation_level : ℕ) :
    ∃ k ≤ max_relaxation_level,
      query_call_levels (some prefs) dbSearch current_year cfg n_results
          max_relaxation_level = List.range (k + 1) ∧
      query_with_progressive_relaxation (some prefs) dbSearch current_year
          cfg n_results max_relaxation_level
        = backendCallAt dbSearch prefs current_year cfg n_results k ∧
      (∀ l, l < k →
        (backendCallAt dbSearch prefs current_year cfg n_results l).length
          < n_results) ∧
      (k < max_relaxation_level →
        n_results ≤
          (backendCallAt dbSearch prefs current_year cfg n_results k).length) ∧
      (n_results ≤
          (backendCallAt dbSearch prefs current_year cfg n_results k).length
        ∨ k = max_relaxation_level) := by
  classical
  have hbridgeC : query_call_levels (some prefs) dbSearch current_year cfg
      n_results max_relaxation_level
      = relaxationCallLevels
          (backendCallAt dbSearch prefs current_year cfg n_results) n_results
          (List.range (max_relaxation_level + 1)) := rfl
  have hbridgeR : query_with_progressive_relaxation (some prefs) dbSearch
      current_year cfg n_results max_relaxation_level
      = relaxationSearchLoop
          (backendCallAt dbSearch prefs current_year cfg n_results) n_results
          (List.range (max_relaxation_level + 1)) [] := rfl
  by_cases h : ∃ l, l ≤ max_relaxation_level ∧
      n_results ≤ (backendCallAt dbSearch prefs current_year cfg n_results l).length
  · have hspec := Nat.find_spec h
    have hins : ∀ i, i < Nat.find h →
        (backendCallAt dbSearch prefs current_year cfg n_results (0 + i)).length
          < n_results := by
      intro i hi
      rw [zero_add]
      by_contra hcon
      push_neg at hcon
      exact Nat.find_min h hi ⟨by omega, hcon⟩
    have hg := relaxLoop_hit
      (backendCallAt dbSearch prefs current_year cfg n_results) n_results
      (Nat.find h) max_relaxation_level 0 [] hspec.1 hins (by rw [zero_add]; exact hspec.2)
    refine ⟨Nat.find h, hspec.1, ?_, ?_, ?_, fun _ => hspec.2, Or.inl hspec.2⟩
    · rw [hbridgeC]
      simp only [List.range_eq_range']
      exact hg.2
    · rw [hbridgeR]
      simp only [List.range_eq_range']
      rw [hg.1, zero_add]
    · intro l hl
      have := hins l hl
      rwa [zero_add] at this
  · push_neg at h
    have hg := relaxLoop_exhaust
      (backendCallAt dbSearch prefs current_year cfg n_results) n_results
      max_relaxation_level 0 []
      (by intro i hi; rw [zero_add]; exact h i hi)
    refine ⟨max_relaxation_level, le_refl _, ?_, ?_, ?_, ?_, Or.inr rfl⟩
    · rw [hbridgeC]
      simp only [List.range_eq_range']
      exact hg.2
    · rw [hbridgeR]
      simp only [List.range_eq_range']
      rw [hg.1, zero_add]
    · intro l hl
      exact h l (by omega)
    · intro hcon
      omega

/-- C2 counterexample: with `building_max_age` present, the condition list
built by `build_filter_conditions` differs between clock years 2024 and
2025 at identical caller-side inputs (same preferences, level and config),
because the function reads `datetime.now().year` internally. -/
theorem C2_counterexample :
    build_filter_conditions 2024 defaultConfig
        { building_max_age := some 10 } 0
      ≠ build_filter_conditions 2025 defaultConfig
          { building_max_age := some 10 } 0 := by
  intro h
  have hmem : FilterCondition.ge "year_built" ((2024 - 10 : ℤ) : ℚ)
      ∈ build_filter_conditions 2024 defaultConfig
          { building_max_age := some 10 } 0 := by
    apply mem_build_filter_conditions.mpr
    refine Or.inr (Or.inr (Or.inr (Or.inr (Or.inr (Or.inr (Or.inr ?_))))))
    exact mem_buildingMaxAgeConds.mpr ⟨10, rfl, by norm_num [defaultConfig], rfl⟩
  rw [h, mem_build_filter_conditions] at hmem
  simp only [mem_bedroomsConds, mem_bathroomsConds, mem_minBudgetConds,
    mem_maxBudgetConds, mem_areaMinConds, mem_areaMaxConds,
    mem_buildingMinYearConds, mem_buildingMaxAgeConds] at hmem
  simp at hmem
  norm_num at hmem

/-- C2 (amended): `build_filter_conditions` reads the current year from
the global clock inside the function rather than taking it from the
caller; it is a deterministic pure function of preferences, relaxation
level, config and that clock-read year, and whenever `building_max_age`
is absent its output does not depend on the clock year at all. -/
theorem C2_pure_except_clock_via_max_age (cfg : RelaxationConfig)
    (prefs : BuyerPreferences) (level : ℕ) (y1 y2 : ℤ)
    (h : prefs.building_max_age = none) :
    build_filter_conditions y1 cfg prefs level
      = build_filter_conditions y2 cfg prefs level := by
  have hseg : ∀ y : ℤ, buildingMaxAgeConds y cfg prefs level = [] := by
    intro y
    simp [buildingMaxAgeConds, h]
  unfold build_filter_conditions
  rw [hseg y1, hseg y2]

/-- Closed witness for the amended C2. -/
theorem C2_witness :
    build_filter_conditions 2024 defaultConfig { bedrooms := some 3 } 0
      = build_filter_conditions 2025 defaultConfig { bedrooms := some 3 } 0 :=
  C2_pure_except_clock_via_max_age defaultConfig { bedrooms := some 3 } 0
    2024 2025 rfl

/-- C4: for levels strictly below `max_building_relax_level` the
`year_built` lower-bound conditions derived from `building_min_year` and
`building_max_age` are emitted, and at every level at or above that
threshold no `year_built` condition of any kind appears (the constraints
are dropped, never widened). -/
theorem C4_building_year_gating (current_year : ℤ) (cfg : RelaxationConfig)
    (prefs : BuyerPreferences) (level : ℕ) :
    (∀ b, prefs.building_min_year = some b →
      (level : ℤ) < cfg.max_building_relax_level →
      FilterCondition.ge "year_built" (b : ℚ)
        ∈ build_filter_conditions current_year cfg prefs level) ∧
    (∀ a, prefs.building_max_age = some a →
      (level : ℤ) < cfg.max_building_relax_level →
      FilterCondition.ge "year_built" ((current_year - a : ℤ) : ℚ)
        ∈ build_filter_conditions current_year cfg prefs level) ∧
    (cfg.max_building_relax_level ≤ (level : ℤ) →
      ∀ c ∈ build_filter_conditions current_year cfg prefs level,
        c.field ≠ "year_built") := by
  refine ⟨?_, ?_, ?_⟩
  · intro b hb hl
    apply mem_build_filter_conditions.mpr
    refine Or.inr (Or.inr (Or.inr (Or.inr (Or.inr (Or.inr (Or.inl ?_))))))
    exact mem_buildingMinYearConds.mpr ⟨b, hb, hl, rfl⟩
  · intro a ha hl
    apply mem_build_filter_conditions.mpr
    refine Or.inr (Or.inr (Or.inr (Or.inr (Or.inr (Or.inr (Or.inr ?_))))))
    exact mem_buildingMaxAgeConds.mpr ⟨a, ha, hl, rfl⟩
  · intro hge c hc
    rw [mem_build_filter_conditions] at hc
    rcases hc with hc | hc | hc | hc | hc | hc | hc | hc
    · obtain ⟨n, _, rfl⟩ := mem_bedroomsConds.mp hc
      simp [FilterCondition.field]
    · obtain ⟨v, _, hcase⟩ := mem_bathroomsConds.mp hc
      rcases hcase with rfl | rfl <;> simp [FilterCondition.field]
    · obtain ⟨B, _, rfl⟩ := mem_minBudgetConds.mp hc
      simp [FilterCondition.field]
    · obtain ⟨B, _, rfl⟩ := mem_maxBudgetConds.mp hc
      simp [FilterCondition.field]
    · obtain ⟨a, _, rfl⟩ := mem_areaMinConds.mp hc
      simp [FilterCondition.field]
    · obtain ⟨a, _, rfl⟩ := mem_areaMaxConds.mp hc
      simp [FilterCondition.field]
    · obtain ⟨b, _, hl, rfl⟩ := mem_buildingMinYearConds.mp hc
      omega
    · obtain ⟨a, _, hl, rfl⟩ := mem_buildingMaxAgeConds.mp hc
      omega

/-- Closed witness for C4: with `building_min_year = 2015` and the default
config (`max_building_relax_level = 2`), the `year_built ≥ 2015` condition
is present at level 1 and no `year_built` condition exists at level 2. -/
theorem C4_witness :
    FilterCondition.ge "year_built" ((2015 : ℤ) : ℚ)
      ∈ build_filter_conditions 2025 defaultConfig
          { building_min_year := some 2015 } 1 ∧
    ∀ c ∈ build_filter_conditions 2025 defaultConfig
        { building_min_year := some 2015 } 2,
      c.field ≠ "year_built" :=
  ⟨(C4_building_year_gating 2025 defaultConfig
      { building_min_year := some 2015 } 1).1 2015 rfl
      (by norm_num [defaultConfig]),
   (C4_building_year_gating 2025 defaultConfig
      { building_min_year := some 2015 } 2).2.2
      (by norm_num [defaultConfig])⟩

/-- C9: `build_filter_conditions` keys emission on presence (`is not None`)
rather than truthiness: a record with no fields set yields an empty
condition list at every level, a present zero value such as
`bedrooms = 0` still emits its exact-match condition at every level, and
for each non-building field a condition is emitted exactly when the field
is present. -/
theorem C9_presence_is_not_none (current_year : ℤ) (cfg : RelaxationConfig)
    (prefs : BuyerPreferences) (level : ℕ) :
    build_filter_conditions current_year cfg ({} : BuyerPreferences) level
        = [] ∧
    (prefs.bedrooms = some 0 →
      FilterCondition.eq "bedrooms" ((0 : ℤ) : ℚ)
        ∈ build_filter_conditions current_year cfg prefs level) ∧
    ((∃ v, FilterCondition.eq "bedrooms" v
        ∈ build_filter_conditions current_year cfg prefs level) ↔
      prefs.bedrooms ≠ none) ∧
    ((∃ v, FilterCondition.ge "bathrooms" v
        ∈ build_filter_conditions current_year cfg prefs level) ↔
      prefs.bathrooms ≠ none) ∧
    ((∃ v, FilterCondition.le "bathrooms" v
        ∈ build_filter_conditions current_year cfg prefs level) ↔
      prefs.bathrooms ≠ none) ∧
    ((∃ v, FilterCondition.ge "price" v
        ∈ build_filter_conditions current_year cfg prefs level) ↔
      prefs.min_budget ≠ none) ∧
    ((∃ v, FilterCondition.le "price" v
        ∈ build_filter_conditions current_year cfg prefs level) ↔
      prefs.max_budget ≠ none) ∧
    ((∃ v, FilterCondition.ge "area_sqft" v
        ∈ build_filter_conditions current_year cfg prefs level) ↔
      prefs.area_min_sqft ≠ none) ∧
    ((∃ v, FilterCondition.le "area_sqft" v
        ∈ build_filter_conditions current_year cfg prefs level) ↔
      prefs.area_max_sqft ≠ none) := by
  refine ⟨rfl, ?_, ?_, ?_, ?_, ?_, ?_, ?_, ?_⟩
  · intro h
    exact mem_build_filter_conditions.mpr
      (Or.inl (mem_bedroomsConds.mpr ⟨0, h, rfl⟩))
  all_goals
    simp [mem_build_filter_conditions, mem_bedroomsConds, mem_bathroomsConds,
      mem_minBudgetConds, mem_maxBudgetConds, mem_areaMinConds,
      mem_areaMaxConds, mem_buildingMinYearConds, mem_buildingMaxAgeConds,
      Option.ne_none_iff_exists']
  all_goals
    exact ⟨fun h => by obtain ⟨v, x, hx, hv⟩ := h; exact ⟨x, hx⟩,
           fun h => by obtain ⟨x, hx⟩ := h; exact ⟨_, x, hx, rfl⟩⟩

/-- C8: with `bathrooms = v` present, exactly two bathroom conditions are
emitted, `bathrooms ≥ v - (tolerance + level)` and
`bathrooms ≤ v + (tolerance + level)`, and both bounds move by exactly 1
per relaxation level. -/
theorem C8_bathrooms_two_conditions_linear_tolerance (current_year : ℤ)
    (cfg : RelaxationConfig) (prefs : BuyerPreferences) (level : ℕ) (v : ℚ)
    (h : prefs.bathrooms = some v) :
    List.filter (fun c => c.field == "bathrooms")
        (build_filter_conditions current_year cfg prefs level)
      = [FilterCondition.ge "bathrooms" (v - (cfg.bathrooms_tolerance + level)),
         FilterCondition.le "bathrooms" (v + (cfg.bathrooms_tolerance + level))] ∧
    v - (cfg.bathrooms_tolerance + ((level + 1 : ℕ) : ℚ))
      = v - (cfg.bathrooms_tolerance + level) - 1 ∧
    v + (cfg.bathrooms_tolerance + ((level + 1 : ℕ) : ℚ))
      = v + (cfg.bathrooms_tolerance + level) + 1 := by
  refine ⟨?_, by push_cast; ring, by push_cast; ring⟩
  unfold build_filter_conditions
  simp only [List.filter_append]
  have h1 : List.filter (fun c => c.field == "bathrooms") (bedroomsConds prefs) = [] := by
    cases hb : prefs.bedrooms <;> simp [bedroomsConds, hb, FilterCondition.field]
  have h2 : List.filter (fun c => c.field == "bathrooms")
      (bathroomsConds cfg prefs level)
      = [FilterCondition.ge "bathrooms" (v - (cfg.bathrooms_tolerance + level)),
         FilterCondition.le "bathrooms" (v + (cfg.bathrooms_tolerance + level))] := by
    simp [bathroomsConds, h, FilterCondition.field]
  have h3 : List.filter (fun c => c.field == "bathrooms")
      (minBudgetConds cfg prefs level) = [] := by
    cases hb : prefs.min_budget <;> simp [minBudgetConds, hb, FilterCondition.field]
  have h4 : List.filter (fun c => c.field == "bathrooms")
      (maxBudgetConds cfg prefs level) = [] := by
    cases hb : prefs.max_budget <;> simp [maxBudgetConds, hb, FilterCondition.field]
  have h5 : List.filter (fun c => c.field == "bathrooms")
      (areaMinConds cfg prefs level) = [] := by
    cases hb : prefs.area_min_sqft <;> simp [areaMinConds, hb, FilterCondition.field]
  have h6 : List.filter (fun c => c.field == "bathrooms")
      (areaMaxConds cfg prefs level) = [] := by
    cases hb : prefs.area_max_sqft <;> simp [areaMaxConds, hb, FilterCondition.field]
  have h7 : List.filter (fun c => c.field == "bathrooms")
      (buildingMinYearConds cfg prefs level) = [] := by
    cases hb : prefs.building_min_year with
    | none => simp [buildingMinYearConds, hb]
    | some b =>
        by_cases hl : (level : ℤ) < cfg.max_building_relax_level <;>
          simp [buildingMinYearConds, hb, hl, FilterCondition.field]
  have h8 : List.filter (fun c => c.field == "bathrooms")
      (buildingMaxAgeConds current_year cfg prefs level) = [] := by
    cases hb : prefs.building_max_age with
    | none => simp [buildingMaxAgeConds, hb]
    | some a =>
        by_cases hl : (level : ℤ) < cfg.max_building_relax_level <;>
          simp [buildingMaxAgeConds, hb, hl, FilterCondition.field]
  rw [h1, h2, h3, h4, h5, h6, h7, h8]
  rfl

/-- Closed witness for C8 at `bathrooms = 1.5`, tolerance `0.5`, level 1. -/
theorem C8_witness :
    List.filter (fun c => c.field == "bathrooms")
        (build_filter_conditions 2025 ⟨1 / 2, 3 / 20, 200, 2⟩
          { bathrooms := some (3 / 2) } 1)
      = [FilterCondition.ge "bathrooms" ((3 : ℚ) / 2 - (1 / 2 + (1 : ℕ))),
         FilterCondition.le "bathrooms" ((3 : ℚ) / 2 + (1 / 2 + (1 : ℕ)))] :=
  (C8_bathrooms_two_conditions_linear_tolerance 2025 ⟨1 / 2, 3 / 20, 200, 2⟩
    { bathrooms := some (3 / 2) } 1 (3 / 2) rfl).1

/-- C7: for preference records satisfying the data-model invariant
(non-negative numeric optionals) and a config with non-negative widening
parameters, every value admitted for a field by the level-`L` conditions
is still admitted by the level-`L+1` conditions: each level's allowed
range is a superset of the previous level's (this holds for all fields,
in particular bathrooms, price and area). -/
theorem C7_ranges_widen_with_level (current_year : ℤ)
    (cfg : RelaxationConfig) (prefs : BuyerPreferences) (level : ℕ)
    (field : String) (x : ℚ)
    (hpct : 0 ≤ cfg.budget_pct) (hdelta : 0 ≤ cfg.area_sqft_delta)
    (hminB : ∀ B, prefs.min_budget = some B → 0 ≤ B)
    (hmaxB : ∀ B, prefs.max_budget = some B → 0 ≤ B)
    (hadm : admits (build_filter_conditions current_year cfg prefs level)
      field x) :
    admits (build_filter_conditions current_year cfg prefs (level + 1))
      field x := by
  intro c hc
  rw [mem_build_filter_conditions] at hc
  rcases hc with hc | hc | hc | hc | hc | hc | hc | hc
  · exact hadm c (mem_build_filter_conditions.mpr (Or.inl hc))
  · obtain ⟨v, hv, hcase⟩ := mem_bathroomsConds.mp hc
    have hge := hadm _ (mem_build_filter_conditions.mpr (Or.inr (Or.inl
      (mem_bathroomsConds.mpr ⟨v, hv, Or.inl rfl⟩))))
    have hle := hadm _ (mem_build_filter_conditions.mpr (Or.inr (Or.inl
      (mem_bathroomsConds.mpr ⟨v, hv, Or.inr rfl⟩))))
    simp only [condAllows] at hge hle
    rcases hcase with rfl | rfl <;> simp only [condAllows] <;> intro hf
    · have := hge hf
      push_cast
      push_cast at this
      linarith
    · have := hle hf
      push_cast
      push_cast at this
      linarith
  · obtain ⟨B, hB, rfl⟩ := mem_minBudgetConds.mp hc
    have hprev := hadm _ (mem_build_filter_conditions.mpr (Or.inr (Or.inr
      (Or.inl (mem_minBudgetConds.mpr ⟨B, hB, rfl⟩)))))
    simp only [condAllows] at hprev ⊢
    intro hf
    have h1 := hprev hf
    have h2 : budget_lower cfg B (level + 1) ≤ budget_lower cfg B level :=
      budget_lower_antitone cfg B level hpct (hminB B hB)
    calc ((budget_lower cfg B (level + 1) : ℤ) : ℚ)
        ≤ ((budget_lower cfg B level : ℤ) : ℚ) := by exact_mod_cast h2
      _ ≤ x := h1
  · obtain ⟨B, hB, rfl⟩ := mem_maxBudgetConds.mp hc
    have hprev := hadm _ (mem_build_filter_conditions.mpr (Or.inr (Or.inr
      (Or.inr (Or.inl (mem_maxBudgetConds.mpr ⟨B, hB, rfl⟩))))))
    simp only [condAllows] at hprev ⊢
    intro hf
    have h1 := hprev hf
    have h2 : budget_upper cfg B level ≤ budget_upper cfg B (level + 1) :=
      budget_upper_monotone cfg B level hpct (hmaxB B hB)
    calc x ≤ ((budget_upper cfg B level : ℤ) : ℚ) := h1
      _ ≤ ((budget_upper cfg B (level + 1) : ℤ) : ℚ) := by exact_mod_cast h2
  · obtain ⟨a, ha, rfl⟩ := mem_areaMinConds.mp hc
    have hprev := hadm _ (mem_build_filter_conditions.mpr (Or.inr (Or.inr
      (Or.inr (Or.inr (Or.inl (mem_areaMinConds.mpr ⟨a, ha, rfl⟩)))))))
    simp only [condAllows] at hprev ⊢
    intro hf
    have h1 := hprev hf
    have h2 : max 0 (a - cfg.area_sqft_delta * ((level + 1 : ℕ) : ℤ))
        ≤ max 0 (a - cfg.area_sqft_delta * (level : ℤ)) := by
      apply max_le_max (le_refl 0)
      have : cfg.area_sqft_delta * (level : ℤ)
          ≤ cfg.area_sqft_delta * ((level + 1 : ℕ) : ℤ) := by
        apply mul_le_mul_of_nonneg_left _ hdelta
        push_cast
        omega
      omega
    calc ((max 0 (a - cfg.area_sqft_delta * ((level + 1 : ℕ) : ℤ)) : ℤ) : ℚ)
        ≤ ((max 0 (a - cfg.area_sqft_delta * (level : ℤ)) : ℤ) : ℚ) := by
          exact_mod_cast h2
      _ ≤ x := h1
  · obtain ⟨a, ha, rfl⟩ := mem_areaMaxConds.mp hc
    have hprev := hadm _ (mem_build_filter_conditions.mpr (Or.inr (Or.inr
      (Or.inr (Or.inr (Or.inr (Or.inl (mem_areaMaxConds.mpr ⟨a, ha, rfl⟩))))))))
    simp only [condAllows] at hprev ⊢
    intro hf
    have h1 := hprev hf
    have h2 : a + cfg.area_sqft_delta * (level : ℤ)
        ≤ a + cfg.area_sqft_delta * ((level + 1 : ℕ) : ℤ) := by
      have : cfg.area_sqft_delta * (level : ℤ)
          ≤ cfg.area_sqft_delta * ((level + 1 : ℕ) : ℤ) := by
        apply mul_le_mul_of_nonneg_left _ hdelta
        push_cast
        omega
      omega
    calc x ≤ ((a + cfg.area_sqft_delta * (level : ℤ) : ℤ) : ℚ) := h1
      _ ≤ ((a + cfg.area_sqft_delta * ((level + 1 : ℕ) : ℤ) : ℤ) : ℚ) := by
          exact_mod_cast h2
  · obtain ⟨b, hb, hl, rfl⟩ := mem_buildingMinYearConds.mp hc
    apply hadm
    apply mem_build_filter_conditions.mpr
    refine Or.inr (Or.inr (Or.inr (Or.inr (Or.inr (Or.inr (Or.inl ?_))))))
    apply mem_buildingMinYearConds.mpr
    refine ⟨b, hb, ?_, rfl⟩
    push_cast at hl ⊢
    omega
  · obtain ⟨a, ha, hl, rfl⟩ := mem_buildingMaxAgeConds.mp hc
    apply hadm
    apply mem_build_filter_conditions.mpr
    refine Or.inr (Or.inr (Or.inr (Or.inr (Or.inr (Or.inr (Or.inr ?_))))))
    apply mem_buildingMaxAgeConds.mpr
    refine ⟨a, ha, ?_, rfl⟩
    push_cast at hl ⊢
    omega

/-- Closed witness for C7: the value 1.5 admitted for bathrooms at level 0
is still admitted at level 1. -/
theorem C7_witness :
    admits (build_filter_conditions 2025 ⟨1 / 2, 3 / 20, 200, 2⟩
      { bathrooms := some (3 / 2) } 1) "bathrooms" (3 / 2) := by
  apply C7_ranges_widen_with_level 2025 ⟨1 / 2, 3 / 20, 200, 2⟩
    { bathrooms := some (3 / 2) } 0 "bathrooms" (3 / 2)
    (by norm_num) (by norm_num)
    (by intro B hB; simp at hB) (by intro B hB; simp at hB)
  intro c hc
  rw [mem_build_filter_conditions] at hc
  simp only [mem_bedroomsConds, mem_bathroomsConds, mem_minBudgetConds,
    mem_maxBudgetConds, mem_areaMinConds, mem_areaMaxConds,
    mem_buildingMinYearConds, mem_buildingMaxAgeConds] at hc
  simp at hc
  rcases hc with rfl | rfl <;> simp [condAllows]

/-- C3 counterexample: at the spec's own scenario (`max_budget = 340000`,
`budget_pct = 0.15`, level 1), the emitted price upper bound is 390999,
not the claimed 391000: in binary64, `340000 * (1 + 0.15 * 1)` evaluates
to `390999.99999999994`, and `int()` truncates it to 390999. -/
theorem C3_counterexample :
    FilterCondition.le "price" 390999
      ∈ build_filter_conditions 2025 defaultConfig
          { bedrooms := some 2, min_budget := some 300000,
            max_budget := some 340000 } 1 ∧
    FilterCondition.le "price" 391000
      ∉ build_filter_conditions 2025 defaultConfig
          { bedrooms := some 2, min_budget := some 300000,
            max_budget := some 340000 } 1 := by
  constructor
  · apply mem_build_filter_conditions.mpr
    refine Or.inr (Or.inr (Or.inr (Or.inl ?_)))
    apply mem_maxBudgetConds.mpr
    refine ⟨340000, rfl, ?_⟩
    rw [budget_upper_340000_1]
    norm_num
  · intro hmem
    rw [mem_build_filter_conditions] at hmem
    simp only [mem_bedroomsConds, mem_bathroomsConds, mem_minBudgetConds,
      mem_maxBudgetConds, mem_areaMinConds, mem_areaMaxConds,
      mem_buildingMinYearConds, mem_buildingMaxAgeConds] at hmem
    simp at hmem
    rw [budget_upper_340000_1] at hmem
    norm_num at hmem

/-- C3 (amended): with `minBudget` (resp. `maxBudget`) present,
`build_filter_conditions` emits a price lower (resp. upper) bound equal to
the binary64 evaluation of `B * (1 - pct * level)` (resp.
`B * (1 + pct * level)`) truncated toward zero; at the scenario
(`300000`/`340000`, `pct = 0.15`, level 1) this yields a lower bound of
255000 as claimed but an upper bound of 390999, one below the claimed
391000, because of binary64 rounding. -/
theorem C3_budget_bounds_binary64 (current_year : ℤ)
    (cfg : RelaxationConfig) (prefs : BuyerPreferences) (level : ℕ)
    (B B' : ℤ) (hmin : prefs.min_budget = some B)
    (hmax : prefs.max_budget = some B') :
    FilterCondition.ge "price" ((budget_lower cfg B level : ℤ) : ℚ)
      ∈ build_filter_conditions current_year cfg prefs level ∧
    FilterCondition.le "price" ((budget_upper cfg B' level : ℤ) : ℚ)
      ∈ build_filter_conditions current_year cfg prefs level ∧
    budget_lower defaultConfig 300000 1 = 255000 ∧
    budget_upper defaultConfig 340000 1 = 390999 := by
  refine ⟨?_, ?_, budget_lower_300000_1, budget_upper_340000_1⟩
  · exact mem_build_filter_conditions.mpr (Or.inr (Or.inr (Or.inl
      (mem_minBudgetConds.mpr ⟨B, hmin, rfl⟩))))
  · exact mem_build_filter_conditions.mpr (Or.inr (Or.inr (Or.inr (Or.inl
      (mem_maxBudgetConds.mpr ⟨B', hmax, rfl⟩)))))

/-- Closed witness for the amended C3 at the spec's scenario record. -/
theorem C3_witness :
    FilterCondition.ge "price"
        ((budget_lower defaultConfig 300000 1 : ℤ) : ℚ)
      ∈ build_filter_conditions 2025 defaultConfig
          { bedrooms := some 2, min_budget := some 300000,
            max_budget := some 340000 } 1 ∧
    FilterCondition.le "price"
        ((budget_upper defaultConfig 340000 1 : ℤ) : ℚ)
      ∈ build_filter_conditions 2025 defaultConfig
          { bedrooms := some 2, min_budget := some 300000,
            max_budget := some 340000 } 1 ∧
    budget_lower defaultConfig 300000 1 = 255000 ∧
    budget_upper defaultConfig 340000 1 = 390999 :=
  C3_budget_bounds_binary64 2025 defaultConfig
    { bedrooms := some 2, min_budget := some 300000,
      max_budget := some 340000 } 1 300000 340000 rfl rfl

/-- C10 counterexample: with `min_budget = 0` present at level 7 the
relaxation factor exceeds 1 (both in exact arithmetic, `0.15 * 7 = 1.05`,
and in the code's binary64 arithmetic), yet the emitted price lower bound
is 0, not negative. -/
theorem C10_counterexample :
    (1 : ℚ) < (3 / 20) * 7 ∧
    1 < fmul64 defaultConfig.budget_pct (roundDouble ((7 : ℕ) : ℚ)) ∧
    budget_lower defaultConfig 0 7 = 0 ∧
    FilterCondition.ge "price" ((budget_lower defaultConfig 0 7 : ℤ) : ℚ)
      ∈ build_filter_conditions 2025 defaultConfig
          { min_budget := some 0 } 7 ∧
    ¬ budget_lower defaultConfig 0 7 < 0 := by
  refine ⟨by norm_num, one_lt_fmul_pct_seven, budget_lower_0_7, ?_, ?_⟩
  · exact mem_build_filter_conditions.mpr (Or.inr (Or.inr (Or.inl
      (mem_minBudgetConds.mpr ⟨0, rfl, rfl⟩))))
  · rw [budget_lower_0_7]
    omega

/-- C10 (amended): for a present non-negative `minBudget = B` at a level
whose binary64 relaxation factor `pct * level` exceeds 1, the emitted
price lower bound is nonpositive and is strictly negative whenever the
binary64 product `B * (1 - pct * level)` is at most -1 (in particular
`B = 300000`, level 7 emits -15000); it is never clamped at zero, in
contrast with the `area_sqft` lower bound, which is always non-negative. -/
theorem C10_budget_lower_unclamped (current_year : ℤ)
    (cfg : RelaxationConfig) (prefs : BuyerPreferences) (level : ℕ) (B : ℤ)
    (hB : prefs.min_budget = some B) (hB0 : 0 ≤ B)
    (hp : 1 < fmul64 cfg.budget_pct (roundDouble (level : ℚ))) :
    budget_lower cfg B level ≤ 0 ∧
    (fmul64 (roundDouble (B : ℚ))
        (fsub64 1 (fmul64 cfg.budget_pct (roundDouble (level : ℚ)))) ≤ -1 →
      budget_lower cfg B level < 0) ∧
    FilterCondition.ge "price" ((budget_lower cfg B level : ℤ) : ℚ)
      ∈ build_filter_conditions current_year cfg prefs level ∧
    (∀ v, FilterCondition.ge "area_sqft" v
        ∈ build_filter_conditions current_year cfg prefs level → 0 ≤ v) ∧
    budget_lower defaultConfig 300000 7 = -15000 := by
  have hsub : fsub64 1 (fmul64 cfg.budget_pct (roundDouble (level : ℚ))) ≤ 0 := by
    unfold fsub64
    apply roundDouble_nonpos
    linarith
  refine ⟨?_, ?_, ?_, ?_, budget_lower_300000_7⟩
  · unfold budget_lower
    apply ratTrunc_nonpos
    unfold fmul64
    apply roundDouble_nonpos
    exact mul_nonpos_iff.mpr (Or.inl
      ⟨roundDouble_nonneg (by exact_mod_cast hB0), hsub⟩)
  · intro hle
    unfold budget_lower
    exact ratTrunc_neg_of_le_neg_one hle
  · exact mem_build_filter_conditions.mpr (Or.inr (Or.inr (Or.inl
      (mem_minBudgetConds.mpr ⟨B, hB, rfl⟩))))
  · intro v hv
    rw [mem_build_filter_conditions] at hv
    rcases hv with hc | hc | hc | hc | hc | hc | hc | hc
    · obtain ⟨n, _, heq⟩ := mem_bedroomsConds.mp hc
      simp at heq
    · obtain ⟨w, _, hcase⟩ := mem_bathroomsConds.mp hc
      rcases hcase with heq | heq <;> simp at heq
    · obtain ⟨b1, _, heq⟩ := mem_minBudgetConds.mp hc
      simp at heq
    · obtain ⟨b1, _, heq⟩ := mem_maxBudgetConds.mp hc
      simp at heq
    · obtain ⟨a, _, heq⟩ := mem_areaMinConds.mp hc
      simp only [FilterCondition.ge.injEq] at heq
      rw [heq.2]
      exact_mod_cast le_max_left 0 _
    · obtain ⟨a, _, heq⟩ := mem_areaMaxConds.mp hc
      simp at heq
    · obtain ⟨b1, _, _, heq⟩ := mem_buildingMinYearConds.mp hc
      simp at heq
    · obtain ⟨a, _, _, heq⟩ := mem_buildingMaxAgeConds.mp hc
      simp at heq

/-- Closed witness for the amended C10 at `min_budget = 300000`, level 7. -/
theorem C10_witness :
    budget_lower defaultConfig 300000 7 ≤ 0 ∧
    (fmul64 (roundDouble ((300000 : ℤ) : ℚ))
        (fsub64 1 (fmul64 defaultConfig.budget_pct
          (roundDouble ((7 : ℕ) : ℚ)))) ≤ -1 →
      budget_lower defaultConfig 300000 7 < 0) ∧
    FilterCondition.ge "price"
        ((budget_lower defaultConfig 300000 7 : ℤ) : ℚ)
      ∈ build_filter_conditions 2025 defaultConfig
          { min_budget := some 300000 } 7 ∧
    (∀ v, FilterCondition.ge "area_sqft" v
        ∈ build_filter_conditions 2025 defaultConfig
            { min_budget := some 300000 } 7 → 0 ≤ v) ∧
    budget_lower defaultConfig 300000 7 = -15000 :=
  C10_budget_lower_unclamped 2025 defaultConfig { min_budget := some 300000 }
    7 300000 rfl (by norm_num) one_lt_fmul_pct_seven
